import Mathlib

/-!
Shallow embedding of the evidence-curation pipeline of the workout-tracker
repository, together with proofs about its specification.

Numeric conventions of the embedding:
* Python floats are modelled as exact rationals (ℚ); the decimal literals of
  the source are written as the corresponding fractions (0.05 = 1/20, …).
* Timestamps are modelled by whole-day counts, matching the places where the
  source only ever inspects `timedelta.days` or day differences.
* Optional values (`None`) are modelled with `Option`; where the source tests
  Python truthiness of a string or list, the empty value is checked explicitly.
* Network / async effects are modelled by passing the store and the LLM
  capability as explicit oracle functions; a claim-relevant write is modelled
  by returning the row the source would send.
-/

namespace EvidencePipeline

/-- A row of the `research_queue` table, restricted to the fields the claims
under study inspect (`services/supabase_client.py`, `ResearchQueueItem`).
`createdAt` is the row creation time in abstract ticks. -/
structure ResearchQueueItem where
  id : String
  title : String
  authors : List String
  abstract : Option String
  status : String
  priority : ℤ
  createdAt : ℕ
  deriving Repr, DecidableEq

/-- The PostgREST ordering key used by `get_pending_queue_items`
(`supabase_client.py` line 109): `order=priority.desc,created_at.asc`.
`a` comes before `b` when `a.priority` is larger, ties broken by earlier
`created_at`. -/
def queueFetchOrder (a b : ResearchQueueItem) : Bool :=
  decide (b.priority < a.priority) ||
    (decide (a.priority = b.priority) && decide (a.createdAt ≤ b.createdAt))

/-- Insert into a list already sorted by `le`, keeping it sorted. -/
def insertSorted (le : α → α → Bool) (a : α) : List α → List α
  | [] => [a]
  | b :: bs => if le a b then a :: b :: bs else b :: insertSorted le a bs

/-- Stable insertion sort, the embedding of the store's `ORDER BY`. -/
def sortByKey (le : α → α → Bool) : List α → List α
  | [] => []
  | a :: as => insertSorted le a (sortByKey le as)

/-- `SupabaseClient.get_pending_queue_items` (`supabase_client.py` lines
101-131): filter the table to `status = pending`, sort by the request's
order key (`priority.desc,created_at.asc`), and apply the limit. -/
def getPendingQueueItems (limit : ℕ) (table : List ResearchQueueItem) :
    List ResearchQueueItem :=
  ((sortByKey queueFetchOrder
    (table.filter (fun i => i.status = "pending"))).take limit)

/-- The ordering the specification asks for ("ordered by `priority` ascending
then creation time ascending"): every adjacent pair is non-decreasing in
priority, ties non-decreasing in creation time. -/
def queueSpecAscending : List ResearchQueueItem → Bool
  | [] => true
  | [_] => true
  | a :: b :: rest =>
    (decide (a.priority < b.priority) ||
      (decide (a.priority = b.priority) && decide (a.createdAt ≤ b.createdAt))) &&
    queueSpecAscending (b :: rest)

/-- A pending queue item of highest priority 1. -/
def queueItemHigh : ResearchQueueItem :=
  { id := "q1", title := "meta-analysis", authors := [], abstract := none
    status := "pending", priority := 1, createdAt := 0 }

/-- A pending queue item of lowest priority 10. -/
def queueItemLow : ResearchQueueItem :=
  { id := "q2", title := "blog post", authors := [], abstract := none
    status := "pending", priority := 10, createdAt := 0 }

/-- A row of `scientific_knowledge`, restricted to the fields the claims
under study inspect (`services/supabase_client.py`, `ScientificClaim`). -/
structure ScientificClaim where
  id : Option String
  claim : String
  category : String
  evidenceLevel : ℤ
  confidenceScore : ℚ
  status : String
  sourceDoi : Option String
  sourceTitle : Option String
  sampleSize : Option ℕ
  studyDesign : Option String
  effectSize : Option ℚ
  conflictingEvidence : Bool
  deriving Repr, DecidableEq

/-- A row returned by the store's `find_similar_claims` RPC: a semantically
similar claim with its similarity score.  Fields are accessed with `.get`
in the agents, hence the `Option` types. -/
structure SimilarClaim where
  id : Option String
  claim : String
  similarity : ℚ
  evidenceLevel : Option ℤ
  studyDesign : Option String
  deriving Repr, DecidableEq

/-- The reply of `LLMService.validate_claim`, as consumed by
`ValidationAgent._validate_claim` (its `.get` defaults are applied by the
consumer, so all fields are present here). -/
structure LLMValidation where
  isValid : Bool
  rejectionReasons : List String
  duplicateOf : Option String
  conflictsWith : List (Option String)
  deriving Repr

/-- The LLM capability interface (`services/llm_service.py`), modelled as
oracle functions: embedding generation, claim validation, conflict
detection and claim extraction.  `generateEmbedding` returns `none` for a
failed generation (the Python `None`). -/
structure LLMService where
  generateEmbedding : String → Option (List ℚ)
  validateClaim : String → String → ℤ → String → Option ℕ → Option ℚ →
    List SimilarClaim → LLMValidation
  detectConflict : String → ℤ → String → String → ℤ → String → Bool

/-- The slice of the persistent store the similarity searches consume:
`find_similar_claims embedding threshold limit`. -/
structure SupabaseStore where
  findSimilarClaims : List ℚ → ℚ → ℕ → List SimilarClaim

/-- `ValidationAgent._find_similar_claims` (`validation_agent.py` lines
342-360): without an LLM return `[]`; otherwise embed the claim text
(falsy embeddings give `[]`), search with threshold `similarity_threshold
- 0.1` and cap 5, and drop the claim itself. -/
def validationFindSimilarClaims (llm : Option LLMService)
    (store : SupabaseStore) (similarityThreshold : ℚ)
    (c : ScientificClaim) : List SimilarClaim :=
  match llm with
  | none => []
  | some l =>
    match l.generateEmbedding c.claim with
    | none => []
    | some embedding =>
      if embedding.isEmpty then []
      else
        (store.findSimilarClaims embedding (similarityThreshold - 1/10)
          5).filter (fun s => s.id ≠ c.id)

/-- `ValidationAgent._check_conflict` (`validation_agent.py` lines 362-394):
without an LLM, conflict iff the evidence levels differ by at least 2
(missing neighbor level defaults to 3); with an LLM, its verdict. -/
def validationCheckConflict (llm : Option LLMService) (c : ScientificClaim)
    (other : SimilarClaim) : Bool :=
  match llm with
  | none => decide (2 ≤ |c.evidenceLevel - other.evidenceLevel.getD 3|)
  | some l =>
    l.detectConflict c.claim c.evidenceLevel (c.studyDesign.getD "unknown")
      other.claim (other.evidenceLevel.getD 3) (other.studyDesign.getD "unknown")

/-- The neighbor loop of `ValidationAgent._validate_claim` (lines 286-297):
similarity above 0.95 marks a duplicate (recording a rejection reason) and
breaks; similarity above the threshold runs the conflict check and collects
the neighbor id.  Returns (duplicate, extra rejection reasons, conflicts). -/
def validationScanNeighbors (llm : Option LLMService)
    (similarityThreshold : ℚ) (c : ScientificClaim) :
    List SimilarClaim → Option String × List String × List (Option String)
  | [] => (none, [], [])
  | s :: rest =>
    if s.similarity > 95/100 then
      (s.id, ["Duplicate of claim " ++ s.id.getD "None"], [])
    else if s.similarity > similarityThreshold then
      let conflict := validationCheckConflict llm c s
      let (dup, reasons, conflicts) :=
        validationScanNeighbors llm similarityThreshold c rest
      (dup, reasons, if conflict then s.id :: conflicts else conflicts)
    else validationScanNeighbors llm similarityThreshold c rest

/-- `ValidationAgent._calculate_validation_score` (`validation_agent.py`
lines 396-428), step by step as in the source: start from the confidence,
add the evidence boost, add the sample-size boost, subtract the penalties,
clamp to [0, 1]. -/
def calculateValidationScore (c : ScientificClaim)
    (rejectionReasons : List String) (similarClaims : List SimilarClaim) : ℚ :=
  let score := c.confidenceScore
  let score := score + (c.evidenceLevel - 1) * (1/20)
  let score : ℚ :=
    match c.sampleSize with
    | some n => if n ≥ 100 then score + 1/10
        else if n ≥ 50 then score + 1/20 else score
    | none => score
  let score := score - rejectionReasons.length * (1/5)
  let score := score - similarClaims.length * (1/20)
  max 0 (min 1 score)

/-- `ValidationResult` (`validation_agent.py` lines 20-29). -/
structure ValidationResult where
  claimId : String
  isValid : Bool
  validationScore : ℚ
  rejectionReasons : List String
  duplicateOf : Option String
  conflictsWith : List (Option String)
  autoValidated : Bool := false
  deriving Repr

/-- `ValidationAgent._validate_claim` (`validation_agent.py` lines 263-340):
evidence-level gate, neighbor scan, optional LLM validation (skipped when a
duplicate was already found), score, and the acceptance decision
`no rejection reasons ∧ score ≥ 0.6 ∧ no duplicate`.  `list(set(...))` on
the conflict list is modelled by `List.dedup`. -/
def validateClaim (llm : Option LLMService) (store : SupabaseStore)
    (similarityThreshold : ℚ) (minEvidenceLevel : ℤ)
    (c : ScientificClaim) : ValidationResult :=
  let rejectionReasons : List String :=
    if c.evidenceLevel < minEvidenceLevel then
      ["Evidence level below minimum"] else []
  let similarClaims :=
    validationFindSimilarClaims llm store similarityThreshold c
  let (duplicateOf, dupReasons, conflictsWith) :=
    validationScanNeighbors llm similarityThreshold c similarClaims
  let rejectionReasons := rejectionReasons ++ dupReasons
  let (rejectionReasons, duplicateOf, conflictsWith) :=
    match llm with
    | some l =>
      if duplicateOf = none then
        let v := l.validateClaim c.claim c.category c.evidenceLevel
          (c.studyDesign.getD "unknown") c.sampleSize c.effectSize similarClaims
        let rejectionReasons :=
          rejectionReasons ++ (if v.isValid then [] else v.rejectionReasons)
        match v.duplicateOf with
        | some d =>
          if d = "" then (rejectionReasons, duplicateOf, conflictsWith ++ v.conflictsWith)
          else (rejectionReasons ++ ["Duplicate of claim " ++ d], some d,
            conflictsWith ++ v.conflictsWith)
        | none => (rejectionReasons, duplicateOf, conflictsWith ++ v.conflictsWith)
      else (rejectionReasons, duplicateOf, conflictsWith)
    | none => (rejectionReasons, duplicateOf, conflictsWith)
  let validationScore := calculateValidationScore c rejectionReasons similarClaims
  let isValid :=
    rejectionReasons.isEmpty && decide (validationScore ≥ 6/10) &&
      duplicateOf.isNone
  { claimId := c.id.getD ""
    isValid := isValid
    validationScore := validationScore
    rejectionReasons := rejectionReasons
    duplicateOf := duplicateOf
    conflictsWith := conflictsWith.dedup }

/-- The patch `update_claim` receives from approval or rejection
(`validation_agent.py` lines 437-442 and 469-473): fields absent from the
rejection patch are `none`. -/
structure ClaimUpdate where
  status : String
  confidenceScore : ℚ
  conflictingEvidence : Option Bool
  autoValidated : Option Bool
  deriving Repr, DecidableEq

/-- The row `create_relationship` receives (`validation_agent.py` lines
454-461 and `supabase_client.py` lines 396-416). -/
structure RelationshipRow where
  sourceClaimId : String
  targetClaimId : Option String
  relationshipType : String
  confidence : ℚ
  notes : String
  deriving Repr, DecidableEq

/-- `ValidationAgent._approve_claim` (`validation_agent.py` lines 430-461):
status `active`, confidence set to the validation score,
`conflicting_evidence` iff the conflict list is non-empty, and one
relationship row of type `conflicts_with` with confidence 0.7 per conflict
(only when the claim has an id, mirroring `if claim.id:`). -/
def approveClaim (c : ScientificClaim) (v : ValidationResult)
    (autoValidated : Bool := false) : ClaimUpdate × List RelationshipRow :=
  let update : ClaimUpdate :=
    { status := "active"
      confidenceScore := v.validationScore
      conflictingEvidence := some (v.conflictsWith.length > 0)
      autoValidated :=
        if autoValidated || v.autoValidated then some true else none }
  match c.id with
  | some cid =>
    (update, v.conflictsWith.map (fun conflictId =>
      { sourceClaimId := cid
        targetClaimId := conflictId
        relationshipType := "conflicts_with"
        confidence := 7/10
        notes := "Detected during validation" }))
  | none => (update, [])

/-- `ValidationAgent._reject_claim` (`validation_agent.py` lines 463-476):
status `deprecated`, confidence set to the validation score, no other
fields touched. -/
def rejectClaim (v : ValidationResult) : ClaimUpdate :=
  { status := "deprecated"
    confidenceScore := v.validationScore
    conflictingEvidence := none
    autoValidated := none }

/-- True when `xs` starts with `pre`, character by character. -/
def charsStartWith : List Char → List Char → Bool
  | [], _ => true
  | _ :: _, [] => false
  | a :: as, b :: bs => a = b && charsStartWith as bs

/-- True when `needle` occurs contiguously inside `hay` (the Python
`needle in hay` on strings). -/
def charsContain : List Char → List Char → Bool
  | [], needle => charsStartWith needle []
  | hay@(_ :: t), needle => charsStartWith needle hay || charsContain t needle

/-- Python's `needle in hay` for strings. -/
def strContains (hay needle : String) : Bool :=
  charsContain hay.data needle.data

/-- Python's `str.lower()`, written over the character list so that it
evaluates inside the kernel. -/
def pyLower (s : String) : String :=
  String.mk (s.data.map Char.toLower)

/-- Python's `str.strip()`: drop leading and trailing whitespace. -/
def pyStrip (s : String) : String :=
  String.mk
    (((s.data.dropWhile Char.isWhitespace).reverse.dropWhile
      Char.isWhitespace).reverse)

/-- Helper for `pySplitWhitespace`: `acc` holds the reversed characters of
the word currently being read. -/
def pySplitWhitespaceAux : List Char → List Char → List String
  | [], acc => if acc.isEmpty then [] else [String.mk acc.reverse]
  | c :: cs, acc =>
    if c.isWhitespace then
      if acc.isEmpty then pySplitWhitespaceAux cs []
      else String.mk acc.reverse :: pySplitWhitespaceAux cs []
    else pySplitWhitespaceAux cs (c :: acc)

/-- Python's `str.split()`: split on whitespace runs, dropping empties. -/
def pySplitWhitespace (s : String) : List String :=
  pySplitWhitespaceAux s.data []

/-- `ConflictAgent._find_similar_claims` (`conflict_agent.py` lines
155-173): without an LLM return `[]`; otherwise embed the claim text
(falsy embeddings give `[]`), search with the agent's threshold and cap
10, and drop the claim itself. -/
def conflictFindSimilarClaims (llm : Option LLMService)
    (store : SupabaseStore) (similarityThreshold : ℚ)
    (c : ScientificClaim) : List SimilarClaim :=
  match llm with
  | none => []
  | some l =>
    match l.generateEmbedding c.claim with
    | none => []
    | some embedding =>
      if embedding.isEmpty then []
      else
        (store.findSimilarClaims embedding similarityThreshold 10).filter
          (fun s => s.id ≠ c.id)

/-- `ConflictAgent._heuristic_conflict_check` (`conflict_agent.py` lines
213-248): fires when exactly one of the two claims contains a negation
word and the lowercased token sets share at least 3 words. -/
def heuristicConflictCheck (c : ScientificClaim) (other : SimilarClaim) : Bool :=
  let negationWords := ["not", "no", "never", "without", "не", "нет"]
  let claimLower := pyLower c.claim
  let otherLower := pyLower other.claim
  let claimHasNegation := negationWords.any (fun w => strContains claimLower w)
  let otherHasNegation := negationWords.any (fun w => strContains otherLower w)
  if claimHasNegation != otherHasNegation then
    let claimWords := (pySplitWhitespace claimLower).dedup
    let otherWords := (pySplitWhitespace otherLower).dedup
    let shared := claimWords.filter (fun w => otherWords.contains w)
    decide (shared.length ≥ 3)
  else false

/-- `ConflictAgent._analyze_conflict` (`conflict_agent.py` lines 175-211):
equal evidence levels are dismissed first ("probably not a conflict, just
replication"); otherwise the LLM decides when present, and the negation
heuristic decides without one. -/
def analyzeConflict (llm : Option LLMService) (c : ScientificClaim)
    (other : SimilarClaim) : Bool :=
  if some c.evidenceLevel = other.evidenceLevel then false
  else
    match llm with
    | some l =>
      l.detectConflict c.claim c.evidenceLevel (c.studyDesign.getD "unknown")
        other.claim (other.evidenceLevel.getD 3) (other.studyDesign.getD "unknown")
    | none => heuristicConflictCheck c other

/-- One entry of the conflict list built by `ConflictAgent._find_conflicts`
(`conflict_agent.py` lines 141-147). -/
structure ConflictRecord where
  claimId : Option String
  claim : String
  evidenceLevel : Option ℤ
  confidence : ℚ
  type : String
  deriving Repr, DecidableEq

/-- The semantic half of `ConflictAgent._find_conflicts` (`conflict_agent.py`
lines 133-147): every semantic neighbor accepted by `_analyze_conflict`
becomes a `semantic_conflict` record. -/
def findSemanticConflicts (llm : Option LLMService) (store : SupabaseStore)
    (similarityThreshold : ℚ) (c : ScientificClaim) : List ConflictRecord :=
  (conflictFindSimilarClaims llm store similarityThreshold c).filterMap
    (fun s =>
      if analyzeConflict llm c s then
        some { claimId := s.id
               claim := s.claim
               evidenceLevel := s.evidenceLevel
               confidence := s.similarity
               type := "semantic_conflict" }
      else none)

/-- The update row produced via `update_embedding_status`
(`kb_agent.py` lines 141-184 and the store call). -/
structure EmbeddingUpdate where
  claimId : Option String
  embedding : Option (List ℚ)
  status : String
  error : Option String
  deriving Repr, DecidableEq

/-- `KnowledgeBaseAgent._generate_embedding` (`kb_agent.py` lines 101-139):
without an LLM mark the embedding `failed` with error
"LLM service not available"; with one, a falsy embedding marks `failed`
with "Empty embedding generated", and otherwise the vector is stored with
status `completed`.  The boolean is the method's return value; the store
write itself is assumed to succeed. -/
def kbGenerateEmbedding (llm : Option LLMService) (c : ScientificClaim) :
    Bool × Option EmbeddingUpdate :=
  match llm with
  | none =>
    (false, some { claimId := c.id, embedding := none, status := "failed"
                   error := some "LLM service not available" })
  | some l =>
    match c.id with
    | none => (false, none)
    | some cid =>
      match l.generateEmbedding c.claim with
      | none =>
        (false, some { claimId := some cid, embedding := none
                       status := "failed"
                       error := some "Empty embedding generated" })
      | some embedding =>
        if embedding.isEmpty then
          (false, some { claimId := some cid, embedding := none
                         status := "failed"
                         error := some "Empty embedding generated" })
        else
          (true, some { claimId := some cid, embedding := some embedding
                        status := "completed", error := none })

/-- `KnowledgeBaseAgent._calculate_hierarchy_score` (`kb_agent.py` lines
218-248), step by step as in the source: base from the evidence level,
scaled by confidence, sample-size multiplier, conflict penalty, capped
at 1. -/
def calculateHierarchyScore (c : ScientificClaim) : ℚ :=
  let baseScore : ℚ := (c.evidenceLevel : ℚ) * (1/5)
  let score := baseScore * c.confidenceScore
  let score : ℚ :=
    match c.sampleSize with
    | some n => if n ≥ 1000 then score * (6/5)
        else if n ≥ 100 then score * (11/10) else score
    | none => score
  let score := if c.conflictingEvidence then score * (4/5) else score
  min 1 score

/-- A claim returned by the LLM extraction capability
(`services/llm_service.py`, `ExtractedClaim`), restricted to the fields
the claims under study inspect. -/
structure ExtractedClaim where
  claim : String
  category : String
  evidenceLevel : ℤ
  confidence : ℚ
  deriving Repr, DecidableEq

/-- An LLM extraction oracle: `extract_claims(title, authors, abstract)`.
Kept separate from `LLMService` because `ExtractionAgent` only consumes
this capability. -/
structure ExtractionLLM where
  extractClaims : String → List String → String → List ExtractedClaim

/-- `ExtractionResult` (`extraction_agent.py` lines 14-20). -/
structure ExtractionResult where
  queueItemId : String
  claims : List ExtractedClaim
  success : Bool
  errorMessage : Option String
  deriving Repr, DecidableEq

/-- `ExtractionAgent._extract_from_item` (`extraction_agent.py` lines
117-166): no LLM gives `success = False` with error
"LLM service not configured"; a missing or empty abstract gives zero
claims with `success = True`; otherwise the LLM's claims are returned. -/
def extractFromItem (llm : Option ExtractionLLM) (item : ResearchQueueItem) :
    ExtractionResult :=
  match llm with
  | none =>
    { queueItemId := item.id, claims := [], success := false
      errorMessage := some "LLM service not configured" }
  | some l =>
    match item.abstract with
    | none =>
      { queueItemId := item.id, claims := [], success := true
        errorMessage := some "No abstract available" }
    | some abstract =>
      if abstract = "" then
        { queueItemId := item.id, claims := [], success := true
          errorMessage := some "No abstract available" }
      else
        { queueItemId := item.id
          claims := l.extractClaims item.title item.authors abstract
          success := true, errorMessage := none }

/-- The terminal queue status `ExtractionAgent.process` assigns to an item
(`extraction_agent.py` lines 79-103): `completed` on a successful
extraction, `failed` otherwise. -/
def extractionItemStatus (llm : Option ExtractionLLM)
    (item : ResearchQueueItem) : String :=
  if (extractFromItem llm item).success then "completed" else "failed"

/-- `ResearchAgent._normalize_author_name` (`research_agent.py` lines
106-111): lowercase, drop dots, collapse whitespace. -/
def normalizeAuthorName (name : String) : String :=
  " ".intercalate
    (pySplitWhitespace (String.mk ((pyLower name).data.filter (fun c => c ≠ '.'))))

/-- `ResearchAgent._normalize_journal_name` (`research_agent.py` lines
113-115): `name.lower().strip()`. -/
def normalizeJournalName (name : String) : String :=
  pyStrip (pyLower name)

/-- `ResearchAgent._get_author_boost` (`research_agent.py` lines 117-139):
the maximum boost over the authors, by exact lookup in the trusted-author
registry and otherwise by the first substring match in registry order. -/
def getAuthorBoost (trustedAuthors : List (String × ℕ))
    (authors : List String) : ℕ :=
  authors.foldl (fun maxBoost author =>
    let normalized := normalizeAuthorName author
    match trustedAuthors.lookup normalized with
    | some boost => max maxBoost boost
    | none =>
      match trustedAuthors.find? (fun p =>
          strContains normalized p.1 || strContains p.1 normalized) with
      | some p => max maxBoost p.2
      | none => maxBoost) 0

/-- `ResearchAgent._get_journal_boost` (`research_agent.py` lines 141-165):
boost of the journal by exact lookup, else first substring match, else 0;
a missing or empty journal gives 0. -/
def getJournalBoost (trustedJournals : List (String × ℕ))
    (journal : Option String) : ℕ :=
  match journal with
  | none => 0
  | some j =>
    if j = "" then 0
    else
      let normalized := normalizeJournalName j
      match trustedJournals.lookup normalized with
      | some boost => boost
      | none =>
        match trustedJournals.find? (fun p =>
            strContains normalized p.1 || strContains p.1 normalized) with
        | some p => p.2
        | none => 0

/-- A PubMed article as consumed by the priority calculator
(`research_agent.py`, `PubMedArticle`); the publication date is embedded
as the whole-day age `(now - publication_date).days`, `none` when the
article has no date. -/
structure PubMedArticle where
  title : String
  authors : List String
  journal : Option String
  studyType : Option String
  publicationAgeDays : Option ℕ
  deriving Repr, DecidableEq

/-- `ResearchAgent._calculate_priority` (`research_agent.py` lines 678-716):
start at the default 5; subtract the design bonus, the author boost, the
journal boost, and 1 for a publication within 30 days; clamp to [1, 10]. -/
def calculatePriority (trustedAuthors trustedJournals : List (String × ℕ))
    (article : PubMedArticle) : ℤ :=
  let priority : ℤ := 5
  let priority :=
    if article.studyType = some "meta_analysis" then priority - 3
    else if article.studyType = some "systematic_review" then priority - 2
    else if article.studyType = some "rct" then priority - 1
    else priority
  let priority := priority - getAuthorBoost trustedAuthors article.authors
  let priority := priority - getJournalBoost trustedJournals article.journal
  let priority :=
    match article.publicationAgeDays with
    | some ageDays => if ageDays < 30 then priority - 1 else priority
    | none => priority
  max 1 (min 10 priority)

/-- The attempt loop of `RetryHandler.execute` (`utils/retry.py` lines
277-389) for a handler without a retry budget (the default construction):
`remaining` counts the retries still allowed, so the loop starts with
`remaining = max_retries` and performs at most `max_retries + 1` calls.
The target is an oracle from the attempt index to its outcome.  A success
returns; a non-retryable or given-up exception is raised at once; an
exhausted attempt budget breaks and raises the last exception.  The first
component counts the calls made to the target. -/
def retryExecuteGo (retryable giveup : ε → Bool) (f : ℕ → Except ε α) :
    (remaining attempt : ℕ) → ℕ × Except ε α
  | 0, attempt =>
    (1, match f attempt with
        | .ok a => .ok a
        | .error e => .error e)
  | remaining + 1, attempt =>
    match f attempt with
    | .ok a => (1, .ok a)
    | .error e =>
      if !retryable e then (1, .error e)
      else if giveup e then (1, .error e)
      else
        let rest := retryExecuteGo retryable giveup f remaining (attempt + 1)
        (rest.1 + 1, rest.2)

/-- `RetryHandler.execute` (`utils/retry.py` lines 277-389), started at
attempt 0 with `max_retries` retries remaining. -/
def retryExecute (retryable giveup : ε → Bool) (maxRetries : ℕ)
    (f : ℕ → Except ε α) : ℕ × Except ε α :=
  retryExecuteGo retryable giveup f maxRetries 0

/-- The knowledge summary the PromptEngineering agent computes per category
(`prompt_engineering_agent.py`, `KnowledgeSummary`), restricted to the
fields `_should_update_prompt` inspects. -/
structure KnowledgeSummary where
  category : String
  totalClaims : ℕ
  avgEvidenceLevel : ℚ
  conflictingAreas : List String
  deriving Repr

/-- The `knowledge_snapshot` recorded with a saved prompt version
(`prompt_engineering_agent.py` lines 394-400; the keys read back in
`_should_update_prompt` are always written by `_save_prompt_version`). -/
structure KnowledgeSnapshot where
  totalClaims : ℕ
  avgEvidenceLevel : ℚ
  conflictingAreas : List String
  deriving Repr

/-- An active `PromptVersion` as consumed by `_should_update_prompt`.  The
store's `get_active_prompt` always fills `created_at` through
`parse_date_safe`, which returns a plain `datetime.date`;
`createdAtAgeDays` records whether that date is set and, when it is, the
whole-day age the intended `(now - created_at).days` would give (`none`
when `created_at` is unset). -/
structure ActivePrompt where
  category : String
  version : ℕ
  knowledgeSnapshot : KnowledgeSnapshot
  createdAtAgeDays : Option ℕ
  deriving Repr

/-- `PromptEngineeringAgent._should_update_prompt`
(`prompt_engineering_agent.py` lines 239-281): regenerate when there is no
active prompt; else when the claim count exceeds the snapshot count by
more than 20%, the mean evidence moved by more than 0.5, or the
conflicting areas grew.  The final age branch never returns: when
`created_at` is set (always a `datetime.date`, see `ActivePrompt`), line
277 computes `datetime.now() - current.created_at`, and subtracting a
`date` from a `datetime` raises `TypeError`, so the comparison
`age.days > 7` is never reached; the raise is modelled as `Except.error`.
Only an unset `created_at` falls through to `False`. -/
def shouldUpdatePrompt (current : Option ActivePrompt)
    (summary : KnowledgeSummary) : Except String Bool :=
  match current with
  | none => .ok true
  | some current =>
    let snapshot := current.knowledgeSnapshot
    if (summary.totalClaims : ℚ) > (snapshot.totalClaims : ℚ) * (6/5) then
      .ok true
    else if |summary.avgEvidenceLevel - snapshot.avgEvidenceLevel| > 1/2 then
      .ok true
    else if summary.conflictingAreas.length > snapshot.conflictingAreas.length
      then .ok true
    else
      match current.createdAtAgeDays with
      | some _ =>
        .error "TypeError: unsupported operand types for -: datetime and date"
      | none => .ok false

/-- The regeneration condition exactly as claim C8 words it: no active
prompt, or growth of more than 20% in the claim count, or a mean-evidence
move of more than 0.5, or more conflicting areas, or an active prompt
older than 7 days. -/
def shouldUpdatePromptSpec (current : Option ActivePrompt)
    (summary : KnowledgeSummary) : Prop :=
  current = none ∨
    ∃ p, current = some p ∧
      ((summary.totalClaims : ℚ) > (p.knowledgeSnapshot.totalClaims : ℚ) * (6/5) ∨
        |summary.avgEvidenceLevel - p.knowledgeSnapshot.avgEvidenceLevel| > 1/2 ∨
        summary.conflictingAreas.length >
          p.knowledgeSnapshot.conflictingAreas.length ∨
        ∃ ageDays, p.createdAtAgeDays = some ageDays ∧ ageDays > 7)

/-- The sample-size bonus exactly as claim C6 words it: +0.1 at a sample of
at least 100, +0.05 at at least 50, else nothing. -/
def sampleSizeBonusSpec : Option ℕ → ℚ
  | some n => if 100 ≤ n then 1/10 else if 50 ≤ n then 1/20 else 0
  | none => 0

/-- The sample-size multiplier exactly as claim C7 words it: ×1.2 at a
sample of at least 1000, ×1.1 at at least 100, else unchanged. -/
def sampleSizeMultiplierSpec : Option ℕ → ℚ
  | some n => if 1000 ≤ n then 6/5 else if 100 ≤ n then 11/10 else 1
  | none => 1

/-- A draft claim, as `ExtractionAgent._store_extracted_claims` would
create it. -/
def draftClaim : ScientificClaim :=
  { id := some "claim-1", claim := "High volume increases hypertrophy"
    category := "hypertrophy", evidenceLevel := 3, confidenceScore := 8/10
    status := "draft", sourceDoi := some "10.1/x", sourceTitle := none
    sampleSize := some 80, studyDesign := some "rct", effectSize := none
    conflictingEvidence := false }

/-- A validation verdict accepting `draftClaim` with one conflicting
neighbor. -/
def conflictedValidation : ValidationResult :=
  { claimId := "claim-1", isValid := true, validationScore := 9/10
    rejectionReasons := [], duplicateOf := none
    conflictsWith := [some "claim-2"] }

/-- A claim the Conflict agent is scanning, at evidence level 3. -/
def conflictSubjectClaim : ScientificClaim :=
  { id := some "claim-3", claim := "Creatine improves strength"
    category := "supplements", evidenceLevel := 3, confidenceScore := 9/10
    status := "active", sourceDoi := none, sourceTitle := none
    sampleSize := none, studyDesign := some "rct", effectSize := none
    conflictingEvidence := false }

/-- A semantic neighbor of `conflictSubjectClaim` at the same evidence
level: a replication, not a conflict. -/
def replicationNeighbor : SimilarClaim :=
  { id := some "claim-4", claim := "Creatine does not improve strength"
    similarity := 8/10, evidenceLevel := some 3, studyDesign := some "rct" }

/-- The trusted-author registry used by the concrete checks. -/
def trustedAuthorsFixture : List (String × ℕ) := [("brad schoenfeld", 4)]

/-- The trusted-journal registry used by the concrete checks. -/
def trustedJournalsFixture : List (String × ℕ) := [("sports medicine", 3)]

/-- An article with unknown study design, untrusted author and journal,
published 400 days ago. -/
def unknownArticle : PubMedArticle :=
  { title := "Some observational study", authors := ["Unknown Author"]
    journal := some "Obscure Journal", studyType := some "cross_sectional"
    publicationAgeDays := some 400 }

/-- A fresh meta-analysis by a trusted author in a trusted journal. -/
def recentMetaAnalysis : PubMedArticle :=
  { title := "Training volume meta-analysis"
    authors := ["Brad Schoenfeld"], journal := some "Sports Medicine"
    studyType := some "meta_analysis", publicationAgeDays := some 10 }

/-- A pending queue item carrying an abstract. -/
def pendingItem : ResearchQueueItem :=
  { id := "item-1", title := "Protein timing and hypertrophy"
    authors := ["A. Author"]
    abstract := some "A randomized trial of protein timing."
    status := "pending", priority := 3, createdAt := 0 }

/-- An active prompt saved 30 days ago whose snapshot recorded 40 claims at
mean evidence 3.2 and no conflicting areas. -/
def agedActivePrompt : ActivePrompt :=
  { category := "nutrition", version := 1
    knowledgeSnapshot :=
      { totalClaims := 40, avgEvidenceLevel := 16/5, conflictingAreas := [] }
    createdAtAgeDays := some 30 }

/-- A knowledge summary that moved only slightly past `agedActivePrompt`'s
snapshot: 41 claims, mean evidence 3.3, still no conflicting areas. -/
def driftSummary : KnowledgeSummary :=
  { category := "nutrition", totalClaims := 41, avgEvidenceLevel := 33/10
    conflictingAreas := [] }

/-- Claim C1: the batch the Extraction agent fetches is claimed to contain
only `pending` items and to be ordered by priority ascending (priority 1,
the highest, first).  The status filter holds, but the query string orders
`priority.desc`: with a priority-1 and a priority-10 pending item in the
queue, the fetched batch returns the priority-10 item first and fails the
ascending ordering, so lowest-priority work is processed first. -/
theorem getPendingQueueItems_orders_priority_descending :
    getPendingQueueItems 10 [queueItemHigh, queueItemLow] =
      [queueItemLow, queueItemHigh] ∧
    queueSpecAscending
      (getPendingQueueItems 10 [queueItemHigh, queueItemLow]) = false ∧
    ((getPendingQueueItems 10 [queueItemHigh, queueItemLow]).all
      (fun i => i.status == "pending")) = true := by decide

/-- Claim C2: on acceptance the status becomes `active` and
`conflicting_evidence` is set as claimed, but the relationship written for
each conflicting claim carries `relationship_type = "conflicts_with"`,
which differs from the claimed `contradicts` (the type the data model
documents and the Conflict agent uses). -/
theorem approveClaim_relationship_type_conflicts_with :
    ((approveClaim draftClaim conflictedValidation).2.map
      (fun r => r.relationshipType)) = ["conflicts_with"] ∧
    ((approveClaim draftClaim conflictedValidation).2.map
      (fun r => r.confidence)) = [7/10] ∧
    (approveClaim draftClaim conflictedValidation).1.status = "active" ∧
    (approveClaim draftClaim conflictedValidation).1.conflictingEvidence =
      some true ∧
    "conflicts_with" ≠ "contradicts" :=
  ⟨rfl, rfl, rfl, rfl, by decide⟩

/-- Claim C3, counterexample: the priority calculator is claimed to return
10 for a paper with unknown study design, no trusted author, no trusted
journal, and an old publication date; on such a concrete article it
returns the default 5, not 10. -/
theorem calculatePriority_unknown_old_paper_is_five :
    calculatePriority trustedAuthorsFixture trustedJournalsFixture
      unknownArticle = 5 ∧ (5 : ℤ) ≠ 10 := by decide

/-- Claim C3, amended: the priority calculator returns 1 for a
meta-analysis by a trusted author with boost at least 3 in a trusted
journal with boost at least 1 published within the last 30 days, and
returns 5 (the default) for a paper with unknown study design, no trusted
author, no trusted journal, and an old publication date. -/
theorem calculatePriority_extreme_inputs :
    (∀ (tA tJ : List (String × ℕ)) (article : PubMedArticle) (ageDays : ℕ),
      article.studyType = some "meta_analysis" →
      3 ≤ getAuthorBoost tA article.authors →
      1 ≤ getJournalBoost tJ article.journal →
      article.publicationAgeDays = some ageDays →
      ageDays < 30 →
      calculatePriority tA tJ article = 1) ∧
    (∀ (tA tJ : List (String × ℕ)) (article : PubMedArticle) (ageDays : ℕ),
      article.studyType ≠ some "meta_analysis" →
      article.studyType ≠ some "systematic_review" →
      article.studyType ≠ some "rct" →
      getAuthorBoost tA article.authors = 0 →
      getJournalBoost tJ article.journal = 0 →
      article.publicationAgeDays = some ageDays →
      30 ≤ ageDays →
      calculatePriority tA tJ article = 5) := by
  constructor
  · intro tA tJ article ageDays hdesign ha hj hage hrecent
    unfold calculatePriority
    rw [hdesign, hage]
    simp only [if_pos rfl, if_pos hrecent]
    omega
  · intro tA tJ article ageDays h1 h2 h3 ha hj hage hold
    simp only [calculatePriority, h1, h2, h3, ha, hj, hage, if_false,
      Nat.cast_zero, ite_false]
    rw [if_neg (by omega : ¬ ageDays < 30)]
    decide

/-- Witness for `calculatePriority_extreme_inputs` at the concrete
registries and articles. -/
theorem calculatePriority_extreme_inputs_witness :
    calculatePriority trustedAuthorsFixture trustedJournalsFixture
      recentMetaAnalysis = 1 ∧
    calculatePriority trustedAuthorsFixture trustedJournalsFixture
      unknownArticle = 5 :=
  ⟨calculatePriority_extreme_inputs.1 _ _ _ 10 rfl (by decide) (by decide)
      rfl (by decide),
    calculatePriority_extreme_inputs.2 _ _ _ 400 (by decide) (by decide)
      (by decide) (by decide) (by decide) rfl (by decide)⟩

/-- Claim C4, counterexample: `RetryHandler.execute` with `max_retries = 3`
and an always-failing retryable target is claimed to call the target
exactly 3 times; on a concrete always-failing target it makes 4 calls (the
initial attempt plus 3 retries), raising the exception of the last call. -/
theorem retryExecute_three_retries_makes_four_calls :
    retryExecute (α := Unit) (fun _ : ℕ => true) (fun _ => false) 3
      (fun n => .error n) = (4, .error 3) ∧
    (retryExecute (α := Unit) (fun _ : ℕ => true) (fun _ => false) 3
      (fun n => .error n)).1 ≠ 3 := ⟨rfl, by decide⟩

/-- Helper: an always-failing retryable target makes `remaining + 1` calls
from any starting attempt and surfaces the exception of the last one. -/
theorem retryExecuteGo_error_count {ε α : Type} (retryable giveup : ε → Bool)
    (e : ℕ → ε)
    (hr : ∀ n, retryable (e n) = true) (hg : ∀ n, giveup (e n) = false) :
    ∀ remaining attempt,
      retryExecuteGo (α := α) retryable giveup (fun n => .error (e n))
        remaining attempt =
        (remaining + 1, .error (e (attempt + remaining))) := by
  intro remaining
  induction remaining with
  | zero => intro attempt; simp [retryExecuteGo]
  | succ r ih =>
    intro attempt
    have harg : attempt + 1 + r = attempt + (r + 1) := by omega
    simp [retryExecuteGo, hr, hg, ih (attempt + 1), harg]

/-- Claim C4, amended: `RetryHandler.execute` with `max_retries` retries and
a target that always raises a retryable exception calls the target exactly
`max_retries + 1` times (the initial attempt plus the retries; 4 times for
`max_retries = 3`) and then raises the exception of the last call. -/
theorem retryExecute_always_failing {ε α : Type} (retryable giveup : ε → Bool)
    (e : ℕ → ε) (maxRetries : ℕ)
    (hr : ∀ n, retryable (e n) = true) (hg : ∀ n, giveup (e n) = false) :
    retryExecute (α := α) retryable giveup maxRetries
      (fun n => .error (e n)) = (maxRetries + 1, .error (e maxRetries)) := by
  unfold retryExecute
  rw [retryExecuteGo_error_count retryable giveup e hr hg maxRetries 0]
  simp

/-- Witness for `retryExecute_always_failing` at `max_retries = 3`. -/
theorem retryExecute_always_failing_witness :
    retryExecute (α := Unit) (fun _ : ℕ => true) (fun _ => false) 3
      (fun n => .error n) = (4, .error 3) :=
  retryExecute_always_failing (fun _ => true) (fun _ => false) (fun n => n) 3
    (fun _ => rfl) (fun _ => rfl)

/-- Claim C5, counterexample: with no LLM the Extraction agent is claimed
to yield zero claims "without treating the item as an error"; on a
concrete pending item the extraction returns `success = False` and the
item is transitioned to `failed`, the error path. -/
theorem extractFromItem_no_llm_error_path :
    (extractFromItem none pendingItem).claims = [] ∧
    (extractFromItem none pendingItem).success = false ∧
    extractionItemStatus none pendingItem = "failed" := by decide

/-- Claim C5, amended: with no LLM the Extraction agent yields zero claims
but treats the item as an error — `success = False` with error
"LLM service not configured", so `process` marks the item `failed` (only a
missing abstract is the non-error zero-claim path) — while the
KnowledgeBase agent marks the embedding `failed` with the error string
"LLM service not available" for later retry. -/
theorem no_llm_extraction_failed_and_embedding_failed
    (item : ResearchQueueItem) (c : ScientificClaim) :
    (extractFromItem none item).claims = [] ∧
    (extractFromItem none item).success = false ∧
    (extractFromItem none item).errorMessage =
      some "LLM service not configured" ∧
    extractionItemStatus none item = "failed" ∧
    kbGenerateEmbedding none c =
      (false, some { claimId := c.id, embedding := none, status := "failed"
                     error := some "LLM service not available" }) :=
  ⟨rfl, rfl, rfl, rfl, rfl⟩

/-- Claim C6: the validation score equals
`confidence + 0.05·(evidence_level − 1) + sample_size_bonus
− 0.2·|rejections| − 0.05·|neighbors|` clamped to [0, 1], with the bonus
+0.1 at a sample of at least 100 and +0.05 at at least 50. -/
theorem calculateValidationScore_closed_form (c : ScientificClaim)
    (rejectionReasons : List String) (similarClaims : List SimilarClaim) :
    calculateValidationScore c rejectionReasons similarClaims =
      max 0 (min 1 (c.confidenceScore + (1/20) * ((c.evidenceLevel : ℚ) - 1) +
        sampleSizeBonusSpec c.sampleSize -
        (1/5) * rejectionReasons.length - (1/20) * similarClaims.length)) := by
  unfold calculateValidationScore sampleSizeBonusSpec
  cases c.sampleSize
  · ring_nf
  · simp only []
    split_ifs <;> ring_nf

/-- Claim C7: the evidence-hierarchy contribution equals
`0.2 · evidence_level · confidence_score`, multiplied by 1.2 at a sample of
at least 1000 (else 1.1 at at least 100), multiplied by 0.8 under
conflicting evidence, capped at 1. -/
theorem calculateHierarchyScore_closed_form (c : ScientificClaim) :
    calculateHierarchyScore c =
      min 1 ((1/5) * (c.evidenceLevel : ℚ) * c.confidenceScore *
        sampleSizeMultiplierSpec c.sampleSize *
        (if c.conflictingEvidence then 4/5 else 1)) := by
  unfold calculateHierarchyScore sampleSizeMultiplierSpec
  cases c.sampleSize <;> cases c.conflictingEvidence <;>
    simp only [Bool.false_eq_true, if_false, if_true, reduceIte] <;>
    (try split_ifs) <;> ring_nf

/-- Claim C8: the agent is claimed to regenerate exactly when one of five
conditions holds, among them "the active prompt is older than 7 days".
On a category whose active prompt is 30 days old and whose knowledge
drifted below every other threshold, the claimed condition demands
regeneration, but `_should_update_prompt` raises a `TypeError` at the age
check (`datetime.now()` minus the `datetime.date` the store always
supplies) instead of returning a decision, so the category errors out and
nothing is regenerated. -/
theorem shouldUpdatePrompt_age_branch_type_error :
    shouldUpdatePrompt (some agedActivePrompt) driftSummary =
      Except.error
        "TypeError: unsupported operand types for -: datetime and date" ∧
    shouldUpdatePromptSpec (some agedActivePrompt) driftSummary := by
  constructor
  · simp only [shouldUpdatePrompt, agedActivePrompt, driftSummary]
    norm_num
    intro h
    rw [abs_of_pos (by norm_num : (0:ℚ) < 1/10)] at h
    norm_num at h
  · exact Or.inr ⟨agedActivePrompt, rfl,
      Or.inr (Or.inr (Or.inr ⟨30, rfl, by norm_num⟩))⟩


/-- Claim C9: with no LLM configured, the Validation and Conflict agents'
similar-claim searches both return the empty list, Validation records
neither a duplicate nor a similarity-based conflict, and the Conflict
agent's semantic pass (the one that would reach the negation/token-overlap
heuristic) analyzes no neighbors and reports no semantic conflicts. -/
theorem no_llm_similarity_searches_empty (store : SupabaseStore)
    (threshold : ℚ) (minEvidence : ℤ) (c : ScientificClaim) :
    validationFindSimilarClaims none store threshold c = [] ∧
    conflictFindSimilarClaims none store threshold c = [] ∧
    (validateClaim none store threshold minEvidence c).duplicateOf = none ∧
    (validateClaim none store threshold minEvidence c).conflictsWith = [] ∧
    findSemanticConflicts none store threshold c = [] :=
  ⟨rfl, rfl, rfl, rfl, rfl⟩

/-- Claim C10: `_analyze_conflict` returns `False` for every neighbor whose
evidence level equals the subject claim's, for any LLM configuration (the
guard fires before the LLM or the negation heuristic is consulted), and
consequently no record in the semantic-conflict list carries the subject's
evidence level. -/
theorem analyzeConflict_equal_evidence :
    (∀ (llm : Option LLMService) (c : ScientificClaim) (other : SimilarClaim),
      other.evidenceLevel = some c.evidenceLevel →
      analyzeConflict llm c other = false) ∧
    (∀ (llm : Option LLMService) (store : SupabaseStore) (threshold : ℚ)
      (c : ScientificClaim),
      ((findSemanticConflicts llm store threshold c).all
        (fun r => r.evidenceLevel != some c.evidenceLevel)) = true) := by
  constructor
  · intro llm c other h
    simp [analyzeConflict, h]
  · intro llm store threshold c
    simp only [List.all_eq_true, findSemanticConflicts, List.mem_filterMap]
    rintro r ⟨s, hs, hr⟩
    split at hr
    next h =>
      have hne : s.evidenceLevel ≠ some c.evidenceLevel := by
        intro heq
        simp [analyzeConflict, heq] at h
      simp only [Option.some.injEq] at hr
      subst hr
      simpa using hne
    next h => simp at hr

/-- Witness for `analyzeConflict_equal_evidence` on a concrete
equal-evidence pair, with no LLM configured. -/
theorem analyzeConflict_equal_evidence_witness :
    analyzeConflict none conflictSubjectClaim replicationNeighbor = false :=
  analyzeConflict_equal_evidence.1 none conflictSubjectClaim
    replicationNeighbor rfl

end EvidencePipeline
